import Mathlib

/-!
Verification of src/test_pdfs/create_test_pdf.py.

The script issues a fixed sequence of calls against a reportlab canvas
(drawString, showPage, save) and prints one confirmation line.  We embed
the canvas as a value accumulating the list of operations issued against
it, in program order, and embed create_test_pdf as the function from the
filename argument to the final canvas together with the printed lines.
The page structure produced by the external PDF library (reportlab is not
part of this repository) is modelled from the spec where a claim needs it.
-/

namespace CreateTestPdf

/-- Letter page size in points, from reportlab.lib.pagesizes
(8.5 in × 11 in at 72 points per inch, i.e. (612, 792)). -/
def letter : Int × Int := (612, 792)

/-- One operation issued against the reportlab canvas.  setPageSize is
included because the library offers it, so that its absence from the
script's trace is expressible; the script never calls it. -/
inductive CanvasOp where
  | drawString (x y : Int) (text : String)
  | showPage
  | save
  | setPageSize (w h : Int)
deriving DecidableEq, Repr

/-- The canvas: the output filename and page size it was created with, and
the operations issued against it so far, in order. -/
structure Canvas where
  filename : String
  pagesize : Int × Int
  ops : List CanvasOp
deriving DecidableEq, Repr

namespace Canvas

/-- c.drawString(x, y, text): record the text-placement call. -/
def drawString (c : Canvas) (x y : Int) (text : String) : Canvas :=
  { c with ops := c.ops ++ [CanvasOp.drawString x y text] }

/-- c.showPage(): record the page finalization. -/
def showPage (c : Canvas) : Canvas :=
  { c with ops := c.ops ++ [CanvasOp.showPage] }

/-- c.save(): record the document save. -/
def save (c : Canvas) : Canvas :=
  { c with ops := c.ops ++ [CanvasOp.save] }

end Canvas

/-- The long page-3 line (the local long_text of create_test_pdf). -/
def long_text : String :=
  "This is a very long line of text that should extend beyond the normal margins and might cause issues with text extraction if the PDF parser doesn\x27t handle line breaks and word boundaries correctly."

/-- Embedding of create_test_pdf: the canvas is created with
pagesize = letter, the drawing calls are issued in program-text order, the
document is saved, and the confirmation line is printed.  Returns the
final canvas together with the list of printed lines. -/
def create_test_pdf (filename : String) : Canvas × List String :=
  let c := Canvas.mk filename letter []
  let height := letter.2
  -- Page 1 - Simple text
  let c := c.drawString 100 (height - 100) "Page 1: Simple Text Testing"
  let c := c.drawString 100 (height - 140) "This is a normal paragraph with standard text."
  let c := c.drawString 100 (height - 160) "It contains multiple sentences to test basic extraction."
  let c := c.drawString 100 (height - 180) "Numbers: 12345, Symbols: !@#$%, Mixed: Text123"
  -- Add some spaced text (common OCR artifact)
  let c := c.drawString 100 (height - 220) "S p a c e d   t e x t   l i k e   O C R   m i g h t   p r o d u c e"
  -- Add text with different cases
  let c := c.drawString 100 (height - 260) "CamelCaseText and normal text mixed together"
  let c := c.drawString 100 (height - 280) "ALL CAPS TEXT AND normal text"
  -- Add some bullet points
  let c := c.drawString 100 (height - 320) "• First bullet point"
  let c := c.drawString 100 (height - 340) "• Second bullet point with more text content"
  let c := c.drawString 100 (height - 360) "• Third point"
  let c := c.showPage
  -- Page 2 - Complex layout
  let c := c.drawString 100 (height - 100) "Page 2: Complex Layout Testing"
  -- Two column simulation
  let c := c.drawString 100 (height - 140) "Left Column:"
  let c := c.drawString 100 (height - 160) "This text should be in"
  let c := c.drawString 100 (height - 180) "the left column area"
  let c := c.drawString 100 (height - 200) "with multiple lines"
  let c := c.drawString 350 (height - 140) "Right Column:"
  let c := c.drawString 350 (height - 160) "This text should be in"
  let c := c.drawString 350 (height - 180) "the right column area"
  let c := c.drawString 350 (height - 200) "with different content"
  -- Table-like content
  let c := c.drawString 100 (height - 280) "Table Data:"
  let c := c.drawString 100 (height - 300) "Name        Age    City"
  let c := c.drawString 100 (height - 320) "John Doe    25     New York"
  let c := c.drawString 100 (height - 340) "Jane Smith  30     Los Angeles"
  let c := c.drawString 100 (height - 360) "Bob Wilson  35     Chicago"
  let c := c.showPage
  -- Page 3 - Edge cases
  let c := c.drawString 100 (height - 100) "Page 3: Edge Cases and Special Characters"
  let c := c.drawString 100 (height - 140) "Unicode: café résumé naïve coöperate"
  let c := c.drawString 100 (height - 160) "Accents: àáâãäåæçèéêëìíîïñòóôõöøùúûüý"
  let c := c.drawString 100 (height - 180) "Math: α β γ δ ε π Σ ∑ ∫ ∞ ≤ ≥ ≠ ±"
  let c := c.drawString 100 (height - 200) "Quotes: \"smart quotes\" \x27single quotes\x27 «guillemets»"
  let c := c.drawString 100 (height - 220) "Em dash—en dash–hyphen-"
  let c := c.drawString 100 (height - 240) "Ellipsis… and three dots..."
  -- Very long line to test word wrapping
  let c := c.drawString 100 (height - 280) (long_text.take 80)
  let c := c.drawString 100 (height - 300) (long_text.drop 80)
  let c := c.save
  (c, ["Created test PDF: " ++ filename])

/-- The __main__ entry point: create_test_pdf("test_document.pdf"). -/
def script_main : Canvas × List String :=
  create_test_pdf "test_document.pdf"

/-- The draw records of an operation list, in order: (x, y, text) for each
drawString call. -/
def drawsOf (ops : List CanvasOp) : List (Int × Int × String) :=
  ops.filterMap fun op =>
    match op with
    | CanvasOp.drawString x y t => some (x, y, t)
    | _ => none

/-- Modelled from the spec: the page structure the external PDF library
(reportlab, not part of this repository) gives the produced document.
Each showPage finalizes the current page; save finalizes the pending page
when it has at least one drawing operation on it.  Each page is its list
of (x, y, text) draw records. -/
def pages (ops : List CanvasOp) : List (List (Int × Int × String)) :=
  (ops.foldl
    (fun acc op =>
      match op with
      | CanvasOp.drawString x y t => (acc.1, acc.2 ++ [(x, y, t)])
      | CanvasOp.setPageSize _ _ => acc
      | CanvasOp.showPage => (acc.1 ++ [acc.2], [])
      | CanvasOp.save => if acc.2.isEmpty then acc else (acc.1 ++ [acc.2], []))
    (([], []) : List (List (Int × Int × String)) × List (Int × Int × String))).1

/-- Modelled from the spec: draw records tagged with the 1-based number of
the page the library places them on; showPage advances the page. -/
def pageRecords (ops : List CanvasOp) : List (Nat × Int × Int × String) :=
  (ops.foldl
    (fun acc op =>
      match op with
      | CanvasOp.drawString x y t => (acc.1, acc.2 ++ [(acc.1, x, y, t)])
      | CanvasOp.showPage => (acc.1 + 1, acc.2)
      | _ => acc)
    ((1, []) : Nat × List (Nat × Int × Int × String))).2

/-- Replays an operation list in an environment where each canvas
operation may fail with an error (for example the file system refusing the
write at save); stops at the first failure. -/
def runOps (fail : CanvasOp → Option String) : List CanvasOp → Except String Unit
  | [] => Except.ok ()
  | op :: rest =>
    match fail op with
    | some e => Except.error e
    | none => runOps fail rest

/-- Modelled from the spec: create_test_pdf run in an environment where
canvas operations may fail.  The script has no try/except, so the first
library error aborts the run before the confirmation line is printed. -/
def create_test_pdf_fallible (fail : CanvasOp → Option String) (filename : String) :
    Except String (Canvas × List String) :=
  match runOps fail (create_test_pdf filename).1.ops with
  | Except.error e => Except.error e
  | Except.ok _ => Except.ok (create_test_pdf filename)

/-- The lines actually printed by a possibly-failing run. -/
def printedOf (r : Except String (Canvas × List String)) : List String :=
  match r with
  | Except.ok p => p.2
  | Except.error _ => []

/-- An observable side effect of one run.  envRead and network are
included so that their absence is expressible. -/
inductive Effect where
  | fileWrite (path : String)
  | printLine (s : String)
  | envRead (n : String)
  | network
deriving DecidableEq, Repr

/-- Modelled from the spec: the observable effects of one run of the
script.  The external library writes (only) the file named by the canvas
filename when save executes, and the script prints its lines; nothing in
the script reads environment variables or opens network connections. -/
def run_effects (filename : String) : List Effect :=
  ((create_test_pdf filename).1.ops.filterMap
    (fun op =>
      match op with
      | CanvasOp.save => some (Effect.fileWrite (create_test_pdf filename).1.filename)
      | _ => none))
  ++ (create_test_pdf filename).2.map Effect.printLine

/-- The fixed operation trace that create_test_pdf issues, as a literal
list; create_test_pdf_ops_eq proves it equal to the trace of the embedding
for every filename. -/
def mainOps : List CanvasOp := [
  CanvasOp.drawString 100 692 "Page 1: Simple Text Testing",
  CanvasOp.drawString 100 652 "This is a normal paragraph with standard text.",
  CanvasOp.drawString 100 632 "It contains multiple sentences to test basic extraction.",
  CanvasOp.drawString 100 612 "Numbers: 12345, Symbols: !@#$%, Mixed: Text123",
  CanvasOp.drawString 100 572 "S p a c e d   t e x t   l i k e   O C R   m i g h t   p r o d u c e",
  CanvasOp.drawString 100 532 "CamelCaseText and normal text mixed together",
  CanvasOp.drawString 100 512 "ALL CAPS TEXT AND normal text",
  CanvasOp.drawString 100 472 "• First bullet point",
  CanvasOp.drawString 100 452 "• Second bullet point with more text content",
  CanvasOp.drawString 100 432 "• Third point",
  CanvasOp.showPage,
  CanvasOp.drawString 100 692 "Page 2: Complex Layout Testing",
  CanvasOp.drawString 100 652 "Left Column:",
  CanvasOp.drawString 100 632 "This text should be in",
  CanvasOp.drawString 100 612 "the left column area",
  CanvasOp.drawString 100 592 "with multiple lines",
  CanvasOp.drawString 350 652 "Right Column:",
  CanvasOp.drawString 350 632 "This text should be in",
  CanvasOp.drawString 350 612 "the right column area",
  CanvasOp.drawString 350 592 "with different content",
  CanvasOp.drawString 100 512 "Table Data:",
  CanvasOp.drawString 100 492 "Name        Age    City",
  CanvasOp.drawString 100 472 "John Doe    25     New York",
  CanvasOp.drawString 100 452 "Jane Smith  30     Los Angeles",
  CanvasOp.drawString 100 432 "Bob Wilson  35     Chicago",
  CanvasOp.showPage,
  CanvasOp.drawString 100 692 "Page 3: Edge Cases and Special Characters",
  CanvasOp.drawString 100 652 "Unicode: café résumé naïve coöperate",
  CanvasOp.drawString 100 632 "Accents: àáâãäåæçèéêëìíîïñòóôõöøùúûüý",
  CanvasOp.drawString 100 612 "Math: α β γ δ ε π Σ ∑ ∫ ∞ ≤ ≥ ≠ ±",
  CanvasOp.drawString 100 592 "Quotes: \"smart quotes\" \x27single quotes\x27 «guillemets»",
  CanvasOp.drawString 100 572 "Em dash—en dash–hyphen-",
  CanvasOp.drawString 100 552 "Ellipsis… and three dots...",
  CanvasOp.drawString 100 512 (long_text.take 80),
  CanvasOp.drawString 100 492 (long_text.drop 80),
  CanvasOp.save
]

/-- Unfolding equation: the trace of a drawString call. -/
theorem Canvas.ops_drawString (c : Canvas) (x y : Int) (t : String) :
    (c.drawString x y t).ops = c.ops ++ [CanvasOp.drawString x y t] := rfl

/-- Unfolding equation: the trace of a showPage call. -/
theorem Canvas.ops_showPage (c : Canvas) :
    c.showPage.ops = c.ops ++ [CanvasOp.showPage] := rfl

/-- Unfolding equation: the trace of a save call. -/
theorem Canvas.ops_save (c : Canvas) :
    c.save.ops = c.ops ++ [CanvasOp.save] := rfl

/-- drawString leaves the page size unchanged. -/
theorem Canvas.pagesize_drawString (c : Canvas) (x y : Int) (t : String) :
    (c.drawString x y t).pagesize = c.pagesize := rfl

/-- showPage leaves the page size unchanged. -/
theorem Canvas.pagesize_showPage (c : Canvas) : c.showPage.pagesize = c.pagesize := rfl

/-- save leaves the page size unchanged. -/
theorem Canvas.pagesize_save (c : Canvas) : c.save.pagesize = c.pagesize := rfl

/-- The operation trace of create_test_pdf is the fixed literal list
mainOps, independently of the filename argument. -/
theorem create_test_pdf_ops_eq (f : String) : (create_test_pdf f).1.ops = mainOps := by
  simp [create_test_pdf, mainOps, letter, Canvas.ops_drawString, Canvas.ops_showPage,
    Canvas.ops_save]

/-- The filename of the final canvas is the filename argument. -/
theorem create_test_pdf_filename_eq (f : String) : (create_test_pdf f).1.filename = f := rfl

/-- The page size of the final canvas is the one the canvas was created
with. -/
theorem create_test_pdf_pagesize_eq (f : String) : (create_test_pdf f).1.pagesize = letter := by
  simp [create_test_pdf, Canvas.pagesize_drawString, Canvas.pagesize_showPage,
    Canvas.pagesize_save]

/-- The script prints exactly its one confirmation line. -/
theorem create_test_pdf_printed_eq (f : String) :
    (create_test_pdf f).2 = ["Created test PDF: " ++ f] := rfl

/-- Splitting a string at a character index and concatenating the two
parts restores the string. -/
theorem string_take_append_drop (s : String) (n : Nat) : s.take n ++ s.drop n = s := by
  rw [String.take_eq, String.drop_eq]
  show String.mk (s.1.take n ++ s.1.drop n) = s
  rw [List.take_append_drop]

/-- The effects of one run are one file write to the filename argument
followed by the one printed confirmation line. -/
theorem run_effects_eq (f : String) :
    run_effects f = [Effect.fileWrite f, Effect.printLine ("Created test PDF: " ++ f)] := by
  unfold run_effects
  rw [create_test_pdf_ops_eq f, create_test_pdf_filename_eq f, create_test_pdf_printed_eq f]
  simp [mainOps, List.filterMap_cons]

/-- Claim C1: every run of create_test_pdf produces a document with
exactly 3 pages: showPage is issued exactly twice, and the final save
finalizes the third page, which has at least one draw call on it. -/
theorem c1_exactly_three_pages (f : String) :
    (pages (create_test_pdf f).1.ops).length = 3 ∧
    (create_test_pdf f).1.ops.count CanvasOp.showPage = 2 ∧
    1 ≤ ((pages (create_test_pdf f).1.ops).getD 2 []).length := by
  rw [create_test_pdf_ops_eq f]
  exact ⟨by decide, by decide, by decide⟩

/-- Claim C2: run as a program with no arguments, the script writes one
output file named test_document.pdf and prints exactly one confirmation
line. -/
theorem c2_entry_point_output :
    script_main.1.filename = "test_document.pdf" ∧
    script_main.2 = ["Created test PDF: test_document.pdf"] ∧
    script_main.2.length = 1 ∧
    run_effects "test_document.pdf"
      = [Effect.fileWrite "test_document.pdf",
         Effect.printLine "Created test PDF: test_document.pdf"] := by
  refine ⟨rfl, rfl, rfl, ?_⟩
  rw [run_effects_eq "test_document.pdf"]
  rfl

set_option maxRecDepth 100000 in
/-- Claim C3: create_test_pdf performs one fixed linear sequence of canvas
operations: the page-1 draws, showPage, the page-2 draws, showPage, the
page-3 draws, and a single save as the last operation; every operation
other than the two showPage calls and the save is a drawString. -/
theorem c3_fixed_linear_sequence (f : String) :
    ∃ d1 d2 d3 : List CanvasOp,
      (create_test_pdf f).1.ops
        = d1 ++ [CanvasOp.showPage] ++ d2 ++ [CanvasOp.showPage] ++ d3 ++ [CanvasOp.save] ∧
      ((d1 ++ d2 ++ d3).all
        (fun op => match op with | CanvasOp.drawString _ _ _ => true | _ => false)) = true ∧
      (create_test_pdf f).1.ops.count CanvasOp.save = 1 ∧
      (create_test_pdf f).1.ops.getLast? = some CanvasOp.save := by
  rw [create_test_pdf_ops_eq f]
  exact ⟨mainOps.take 10, (mainOps.drop 11).take 14, (mainOps.drop 26).take 9,
    by decide, by decide, by decide, by decide⟩

set_option maxRecDepth 100000 in
/-- Claim C4: every string passed to a drawString call appears among the
draw records of some page, each page's record list is exactly the records
tagged with its page number, and each of the three page-header strings
occurs with its page number among the (page, x, y, text) draw records. -/
theorem c4_strings_on_their_pages (f : String) :
    ((drawsOf (create_test_pdf f).1.ops).all
      (fun r => (pages (create_test_pdf f).1.ops).any (fun pg => pg.contains r))) = true ∧
    ((pages (create_test_pdf f).1.ops).getD 0 []
      = (pageRecords (create_test_pdf f).1.ops).filterMap
          (fun r => if r.1 = 1 then some r.2 else none)) ∧
    ((pages (create_test_pdf f).1.ops).getD 1 []
      = (pageRecords (create_test_pdf f).1.ops).filterMap
          (fun r => if r.1 = 2 then some r.2 else none)) ∧
    ((pages (create_test_pdf f).1.ops).getD 2 []
      = (pageRecords (create_test_pdf f).1.ops).filterMap
          (fun r => if r.1 = 3 then some r.2 else none)) ∧
    (1, 100, 692, "Page 1: Simple Text Testing") ∈ pageRecords (create_test_pdf f).1.ops ∧
    (2, 100, 692, "Page 2: Complex Layout Testing") ∈ pageRecords (create_test_pdf f).1.ops ∧
    (3, 100, 692, "Page 3: Edge Cases and Special Characters")
      ∈ pageRecords (create_test_pdf f).1.ops := by
  rw [create_test_pdf_ops_eq f]
  exact ⟨by decide, by decide, by decide, by decide, by decide, by decide, by decide⟩

/-- Claim C5: the canvas is created with the standard letter page size
(612 by 792 points) and no operation in the trace changes the page size
before any page is finalized. -/
theorem c5_letter_page_size (f : String) :
    (create_test_pdf f).1.pagesize = letter ∧
    letter = (612, 792) ∧
    ((create_test_pdf f).1.ops.all
      (fun op => match op with | CanvasOp.setPageSize _ _ => false | _ => true)) = true := by
  refine ⟨create_test_pdf_pagesize_eq f, rfl, ?_⟩
  rw [create_test_pdf_ops_eq f]
  decide

/-- Claim C6: the long page-3 line is wrapped by truncation at character
offset 80: the two consecutive draws are the slice of long_text up to
index 80 and the slice from index 80 onward, and the concatenation of the
two drawn strings, in the order drawn, equals long_text. -/
theorem c6_truncation_wrap (f : String) :
    (create_test_pdf f).1.ops.get? 33
      = some (CanvasOp.drawString 100 512 (long_text.take 80)) ∧
    (create_test_pdf f).1.ops.get? 34
      = some (CanvasOp.drawString 100 492 (long_text.drop 80)) ∧
    long_text.take 80 ++ long_text.drop 80 = long_text := by
  rw [create_test_pdf_ops_eq f]
  exact ⟨rfl, rfl, string_take_append_drop long_text 80⟩

/-- Claim C7: every drawString call is issued at coordinates within the
letter page: 0 ≤ x ≤ 612 and 0 ≤ y ≤ 792, although the script checks
nothing. -/
theorem c7_coordinates_within_page (f : String) :
    ((drawsOf (create_test_pdf f).1.ops).all
      (fun r => decide (0 ≤ r.1 ∧ r.1 ≤ letter.1 ∧ 0 ≤ r.2.1 ∧ r.2.1 ≤ letter.2))) = true := by
  rw [create_test_pdf_ops_eq f]
  decide

/-- Claim C8: create_test_pdf defines no error handling: if replaying its
operations fails at some operation, the error propagates unchanged to the
caller and the confirmation line is not printed. -/
theorem c8_error_propagation (fail : CanvasOp → Option String) (f e : String)
    (h : runOps fail (create_test_pdf f).1.ops = Except.error e) :
    create_test_pdf_fallible fail f = Except.error e ∧
    printedOf (create_test_pdf_fallible fail f) = [] := by
  unfold create_test_pdf_fallible
  rw [h]
  exact ⟨rfl, rfl⟩

/-- Witness for C8: in an environment where the save operation fails with
"disk full", the run fails with exactly that error and prints nothing. -/
theorem c8_error_propagation_witness :
    create_test_pdf_fallible
        (fun op => match op with | CanvasOp.save => some "disk full" | _ => none)
        "test_document.pdf"
      = Except.error "disk full" ∧
    printedOf
        (create_test_pdf_fallible
          (fun op => match op with | CanvasOp.save => some "disk full" | _ => none)
          "test_document.pdf")
      = [] :=
  c8_error_propagation
    (fun op => match op with | CanvasOp.save => some "disk full" | _ => none)
    "test_document.pdf" "disk full"
    (by rw [create_test_pdf_ops_eq "test_document.pdf"]; rfl)

/-- Claim C9: a run's observable effects are exactly the one file write to
the filename argument and the single printed confirmation line; no
environment reads and no network effects occur. -/
theorem c9_frame_effects (f : String) :
    run_effects f = [Effect.fileWrite f, Effect.printLine ("Created test PDF: " ++ f)] ∧
    ((run_effects f).all
      (fun e => match e with
        | Effect.envRead _ => false
        | Effect.network => false
        | _ => true)) = true := by
  refine ⟨run_effects_eq f, ?_⟩
  rw [run_effects_eq f]
  rfl

/-- Claim C10: for every filename f, create_test_pdf writes its output to
the path f, prints the line "Created test PDF: " followed by f, and issues
an operation trace independent of the filename. -/
theorem c10_filename_parametric (f g : String) :
    (create_test_pdf f).1.filename = f ∧
    (create_test_pdf f).2 = ["Created test PDF: " ++ f] ∧
    (create_test_pdf f).1.ops = (create_test_pdf g).1.ops :=
  ⟨create_test_pdf_filename_eq f, create_test_pdf_printed_eq f,
    (create_test_pdf_ops_eq f).trans (create_test_pdf_ops_eq g).symm⟩

end CreateTestPdf
